import Mathlib

/-!
Verification of the filtering-and-aggregation pipeline of
`entremotivator/dragondash` (`src/app.py`), a Streamlit dashboard over three
in-memory tabular datasets (client registry, daily ledger, payout journal).

Modelling conventions:
* Python floats are modelled as exact rationals (`ℚ`); Python's `round(x, 2)`
  (round-half-to-even) is `round2`.
* A pandas `DataFrame` is a `List` of records; boolean-mask filtering is
  `List.filter`.
* The pseudo-random draws consumed by the generators (`random.uniform`,
  `random.random() > p`, `random.choice`, `random.randint`) are taken as
  explicit inputs, so each generator is a pure function of its draw stream.
* `pandas.Series.str.contains(pat, case=False, na=False)` keeps its default
  `regex=True`: it performs a case-insensitive regular-expression *search*.
  The regex fragment actually modelled is patterns built from literal
  characters and the `.` wildcard (which in Python matches any character
  except a newline); case-insensitivity is modelled by lower-casing both
  sides.
-/

set_option maxRecDepth 10000

namespace DragonDash

/-- Round-half-to-even on rationals, the semantics of Python's built-in
`round` applied to the value `q` (ties go to the even integer). -/
def roundHalfEven (q : ℚ) : ℤ :=
  let f : ℤ := ⌊q⌋
  let r : ℚ := q - f
  if r < 1/2 then f
  else if 1/2 < r then f + 1
  else if f % 2 = 0 then f else f + 1

/-- Python's `round(x, 2)`: round to two decimal places, ties to even. -/
def round2 (q : ℚ) : ℚ := (roundHalfEven (100 * q) : ℚ) / 100

/-- Python `int()` on a rational: truncation toward zero (`Int.tdiv` is
T-division, matching Python's `int(float)`). -/
def pyInt (q : ℚ) : ℤ := Int.tdiv q.num (q.den : ℤ)

/-! ### Data model

One record type per dataset, with the columns built in `src/app.py`
(lines 101-116, 138-147, 162-169).  Monetary columns are `ℚ`; the date
columns are modelled as day numbers (`ℕ`), which is faithful because the
code only ever compares dates and the string dates `YYYY-MM-DD` compare
in the same order as the underlying days. -/

/-- One row of the Client Registry (`generate_demo_clients`, lines 101-116).
`lastActivity`/`joinDate` hold the days-ago draws behind the date strings. -/
structure Client where
  clientId : String
  name : String
  email : String
  verified : String
  maxBalance : ℚ
  currentBalance : ℚ
  cashAppSent : ℚ
  zelleSent : ℚ
  paypalSent : ℚ
  bankTransfer : ℚ
  totalSent : ℚ
  payoutStatus : String
  lastActivity : ℕ
  joinDate : ℕ
deriving DecidableEq

/-- One row of the Daily Ledger (`generate_daily_logs`, lines 138-147).
`date` is the day index within the generated run (chronological order). -/
structure LogEntry where
  date : ℕ
  cashApp : ℚ
  zelle : ℚ
  paypal : ℚ
  bankTransfer : ℚ
  dailyTotal : ℚ
  cumulativeTotal : ℚ
  transactions : ℕ
deriving DecidableEq

/-- One row of the Payout Journal (`generate_payout_confirmations`,
lines 162-169).  `date` holds the days-ago draw behind the timestamp. -/
structure Payout where
  confirmationId : String
  amount : ℚ
  method : String
  status : String
  date : ℕ
  clientId : String
deriving DecidableEq

/-! ### Data generation

The pseudo-random draws consumed by each loop iteration are bundled into a
`…Draw` structure and passed in, making the generators pure functions of
the draw stream. -/

/-- The draws consumed by one iteration of the client loop (lines 83-116).
A `…On` flag is the comparison `random.random() > p` that gates a channel;
a `…Raw` value is the corresponding `random.uniform` draw. -/
structure ClientDraw where
  firstName : String
  lastName : String
  cashAppOn : Bool
  cashAppRaw : ℚ
  zelleOn : Bool
  zelleRaw : ℚ
  paypalOn : Bool
  paypalRaw : ℚ
  bankOn : Bool
  bankRaw : ℚ
  maxBalanceRaw : ℚ
  noise : ℚ
  verifiedFlag : Bool
  payoutChoice : String
  emailNum : ℕ
  domain : String
  lastActivityDays : ℕ
  joinDays : ℕ
deriving DecidableEq

/-- Line 88: `cash_app = round(random.uniform(0, 1000), 2) if random.random() > 0.3 else 0`. -/
def cash_app (d : ClientDraw) : ℚ := if d.cashAppOn then round2 d.cashAppRaw else 0

/-- Line 89. -/
def zelle (d : ClientDraw) : ℚ := if d.zelleOn then round2 d.zelleRaw else 0

/-- Line 90. -/
def paypal (d : ClientDraw) : ℚ := if d.paypalOn then round2 d.paypalRaw else 0

/-- Line 91. -/
def bank_transfer (d : ClientDraw) : ℚ := if d.bankOn then round2 d.bankRaw else 0

/-- Line 93: `total_sent = cash_app + zelle + paypal + bank_transfer`. -/
def total_sent (d : ClientDraw) : ℚ := cash_app d + zelle d + paypal d + bank_transfer d

/-- Line 94: `max_balance = round(random.uniform(500, 5000), 2)`. -/
def max_balance (d : ClientDraw) : ℚ := round2 d.maxBalanceRaw

/-- The unrounded balance expression inside line 95:
`max_balance - total_sent + random.uniform(-200, 500)`. -/
def current_balance_raw (d : ClientDraw) : ℚ := max_balance d - total_sent d + d.noise

/-- Line 95: `current_balance = round(max_balance - total_sent + random.uniform(-200, 500), 2)`. -/
def current_balance (d : ClientDraw) : ℚ := round2 (current_balance_raw d)

/-- Lines 101-116: the record appended for client `i`.  The stored
`Current Balance` is `max(current_balance, 0)` (line 107). -/
def mkClient (i : ℕ) (d : ClientDraw) : Client where
  clientId := "DD-" ++ Nat.repr (1000 + i)
  name := d.firstName ++ " " ++ d.lastName
  email := d.firstName.toLower ++ "." ++ d.lastName.toLower ++ Nat.repr d.emailNum
    ++ "@" ++ d.domain
  verified := if d.verifiedFlag then "✅ Verified" else "❌ Unverified"
  maxBalance := max_balance d
  currentBalance := max (current_balance d) 0
  cashAppSent := cash_app d
  zelleSent := zelle d
  paypalSent := paypal d
  bankTransfer := bank_transfer d
  totalSent := total_sent d
  payoutStatus := d.payoutChoice
  lastActivity := d.lastActivityDays
  joinDate := d.joinDays

/-- Lines 80-118: `generate_demo_clients`, one record per draw, indexed from 0. -/
def generate_demo_clients (draws : List ClientDraw) : List Client :=
  draws.enum.map fun p => mkClient p.1 p.2

/-- The draws consumed by one iteration of the daily-log loop (lines 126-147). -/
structure DayDraw where
  cashAppRaw : ℚ
  zelleRaw : ℚ
  paypalRaw : ℚ
  bankRaw : ℚ
  transactions : ℕ
deriving DecidableEq

/-- Lines 126-147: the log loop.  `day` is the current day index and `cum`
the running value of `total_cumulative` (line 124 initialises it to 0;
line 136 is `total_cumulative += daily_total`). -/
def genLogsAux (day : ℕ) (cum : ℚ) : List DayDraw → List LogEntry
  | [] => []
  | d :: rest =>
    let cash_app_daily := round2 d.cashAppRaw
    let zelle_daily := round2 d.zelleRaw
    let paypal_daily := round2 d.paypalRaw
    let bank_daily := round2 d.bankRaw
    let daily_total := cash_app_daily + zelle_daily + paypal_daily + bank_daily
    { date := day
      cashApp := cash_app_daily
      zelle := zelle_daily
      paypal := paypal_daily
      bankTransfer := bank_daily
      dailyTotal := daily_total
      cumulativeTotal := cum + daily_total
      transactions := d.transactions } :: genLogsAux (day + 1) (cum + daily_total) rest

/-- Lines 120-149: `generate_daily_logs` over an explicit draw stream. -/
def generate_daily_logs (draws : List DayDraw) : List LogEntry :=
  genLogsAux 0 0 draws

/-- The draws consumed by one iteration of the payout loop (lines 156-169).
`idNum` is `random.randint(10000, 99999)` and `clientNum` is
`random.randint(1000, 1019)`. -/
structure PayoutDraw where
  idNum : ℕ
  amountRaw : ℚ
  method : String
  status : String
  daysAgo : ℕ
  clientNum : ℕ
deriving DecidableEq

/-- Lines 157-169: the record appended for one payout draw. -/
def mkPayout (d : PayoutDraw) : Payout where
  confirmationId := "PAY-" ++ Nat.repr d.idNum
  amount := round2 d.amountRaw
  method := d.method
  status := d.status
  date := d.daysAgo
  clientId := "DD-" ++ Nat.repr d.clientNum

/-- Lines 151-171: `generate_payout_confirmations` over an explicit draw
stream (the source draws 15 records). -/
def generate_payout_confirmations (draws : List PayoutDraw) : List Payout :=
  draws.map mkPayout

/-- The ranges the payout loop draws from (lines 156-168): this is what it
means for a draw stream to be one the source can actually produce. -/
def validPayoutDraw (d : PayoutDraw) : Prop :=
  10000 ≤ d.idNum ∧ d.idNum ≤ 99999 ∧
  (50 : ℚ) ≤ d.amountRaw ∧ d.amountRaw ≤ 2000 ∧
  d.method ∈ (["Cash App", "Zelle", "PayPal", "Bank Transfer"] : List String) ∧
  d.status ∈ (["Completed", "Processing", "Failed"] : List String) ∧
  d.daysAgo ≤ 14 ∧ 1000 ≤ d.clientNum ∧ d.clientNum ≤ 1019

instance (d : PayoutDraw) : Decidable (validPayoutDraw d) := by
  unfold validPayoutDraw; infer_instance

/-! ### The search predicate

Line 287: `filtered_df["Name"].str.contains(search_term, case=False, na=False)`.
pandas' `Series.str.contains` keeps its default `regex=True`, so it runs
`re.search(search_term, value, re.IGNORECASE)` — a regular-expression
*search*, not substring containment.  The fragment modelled here is
patterns made of literal characters plus the `.` wildcard (which matches
any character except a newline); `re.IGNORECASE` is modelled by
lower-casing both pattern and value.  The spec instead reads the search as
plain case-insensitive substring containment (`containsSubAux`); the two
agree exactly when the pattern contains no metacharacter. -/

/-- The character `.` (the regex wildcard). -/
def dotChar : Char := Char.ofNat 46

/-- The newline character, which the `.` wildcard does not match. -/
def newlineChar : Char := Char.ofNat 10

/-- Does the pattern match at the head of the value?  Literal characters
must coincide; `.` matches any character except a newline. -/
def reMatchAt : List Char → List Char → Bool
  | [], _ => true
  | _ :: _, [] => false
  | p :: ps, h :: hs =>
    (if p == dotChar then !(h == newlineChar) else p == h) && reMatchAt ps hs

/-- Model of `re.search`: try the pattern at every start position (including the
position at the end of the string, where only the empty pattern matches). -/
def reSearchAux (pat : List Char) : List Char → Bool
  | [] => reMatchAt pat []
  | h :: hs => reMatchAt pat (h :: hs) || reSearchAux pat hs

/-- Lower-case a string's characters (the model of `re.IGNORECASE`). -/
def lowerChars (s : String) : List Char := s.toList.map Char.toLower

/-- Model of `value.str.contains(pat, case=False, na=False)` for one cell. -/
def pyContains (s pat : String) : Bool :=
  reSearchAux (lowerChars pat) (lowerChars s)

/-- The spec's reading of the search: `sub` occurs in `s` as a contiguous
substring, case-insensitively. -/
def containsSubAux (sub : List Char) : List Char → Bool
  | [] => sub.isPrefixOf []
  | h :: hs => sub.isPrefixOf (h :: hs) || containsSubAux sub hs

/-- Case-insensitive substring containment (the spec's wording of search). -/
def strContainsCI (s sub : String) : Bool :=
  containsSubAux (lowerChars sub) (lowerChars s)

/-! ### Filtering (sidebar filters, lines 219-230, 285-289, 330-337, 439-441) -/

/-- Lines 219-230: the sidebar client filters, applied in sequence exactly
as in the script — verification status, payout status, then the inclusive
balance-range mask.  The slider bounds `lo`, `hi` are integers. -/
def filtered_df (vf pfs : String) (lo hi : ℤ) (client_df : List Client) : List Client :=
  let d1 := if vf ≠ "All" then client_df.filter (fun c => c.verified == vf) else client_df
  let d2 := if pfs ≠ "All" then d1.filter (fun c => c.payoutStatus == pfs) else d1
  d2.filter fun c => decide ((lo : ℚ) ≤ c.currentBalance) && decide (c.currentBalance ≤ (hi : ℚ))

/-- Lines 285-289: `if search_term: filtered_df = filtered_df[Name-or-Email contains]`.
An empty search term is falsy, so no filter is applied. -/
def apply_search (search_term : String) (d : List Client) : List Client :=
  if search_term ≠ "" then
    d.filter fun c => pyContains c.name search_term || pyContains c.email search_term
  else d

/-- The value of `filtered_df` after line 289: all four client filters. -/
def filtered_df_searched (vf pfs : String) (lo hi : ℤ) (search_term : String)
    (client_df : List Client) : List Client :=
  apply_search search_term (filtered_df vf pfs lo hi client_df)

/-- The first three client predicates (the sidebar ones), as one
conjunction, associated the way the source's filter chain nests. -/
def clientPredNoSearch (vf pfs : String) (lo hi : ℤ) (c : Client) : Bool :=
  ((vf == "All" || c.verified == vf) &&
    (pfs == "All" || c.payoutStatus == pfs)) &&
  (decide ((lo : ℚ) ≤ c.currentBalance) && decide (c.currentBalance ≤ (hi : ℚ)))

/-- All four client predicates as one conjunction, with the search read as
the source implements it (regex search). -/
def clientPred (vf pfs : String) (lo hi : ℤ) (search_term : String) (c : Client) : Bool :=
  clientPredNoSearch vf pfs lo hi c &&
  (search_term == "" || (pyContains c.name search_term || pyContains c.email search_term))

/-- All four client predicates with the search read as the *spec* words it:
case-insensitive substring containment. -/
def clientPredSpec (vf pfs : String) (lo hi : ℤ) (search_term : String) (c : Client) : Bool :=
  clientPredNoSearch vf pfs lo hi c &&
  (search_term == "" || (strContainsCI c.name search_term || strContainsCI c.email search_term))

/-- Lines 330-337: ledger filtering.  When the supplied date range has
exactly two bounds the entries inside the inclusive `[start_date, end_date]`
window pass; otherwise the filter is a no-op. -/
def logs_filtered (date_range : List ℕ) (logs_df : List LogEntry) : List LogEntry :=
  match date_range with
  | [start_date, end_date] =>
    logs_df.filter fun l => decide (start_date ≤ l.date) && decide (l.date ≤ end_date)
  | _ => logs_df

/-- Lines 439-441: payout filtering by exact status, `"All"` passing everything. -/
def filtered_payouts (sel : String) (payouts_df : List Payout) : List Payout :=
  if sel ≠ "All" then payouts_df.filter (fun p => p.status == sel) else payouts_df

/-! ### Displayed metrics

Each `st.metric` value, as a function of the widget inputs and the held
datasets, computed from exactly the view the script passes at that line.
The key-metrics row (lines 235-275) runs *before* the search box (line 283),
so it sees `filtered_df`, not the searched view.  The payout summary
(lines 463-476) and the "Confirmed Payouts" card (line 270) read
`payouts_df`, the full journal. -/

/-- A value shown on the dashboard: a number, an explicit textual fallback
such as `"N/A"`, or the rendering of a floating-point NaN. -/
inductive Displayed where
  | money (q : ℚ)
  | text (s : String)
  | nan
deriving DecidableEq

/-- pandas `Series.max`: maximum of the values; the empty series (never fed
to it by the app, which always holds 20 clients) is given the junk value 0. -/
def seriesMax : List ℚ → ℚ
  | [] => 0
  | [x] => x
  | x :: y :: t => max x (seriesMax (y :: t))

/-- pandas `Series.mean`: the arithmetic mean; on an empty series the
floating-point result is NaN. -/
def seriesMean (l : List ℚ) : Displayed :=
  if l.length = 0 then Displayed.nan else Displayed.money (l.sum / l.length)

/-- Lines 202-208: the balance slider runs from 0 to
`int(client_df["Current Balance"].max())` and *defaults* to that full span,
`int()` truncating the fractional part of the column maximum. -/
def balance_range_default (client_df : List Client) : ℤ × ℤ :=
  (0, pyInt (seriesMax (client_df.map (·.currentBalance))))

/-- Line 245: `total_sent = filtered_df["Total Sent"].sum()`. -/
def metric_total_sent (vf pfs : String) (lo hi : ℤ) (client_df : List Client) : ℚ :=
  ((filtered_df vf pfs lo hi client_df).map (·.totalSent)).sum

/-- Line 253: `total_balance = filtered_df["Current Balance"].sum()`. -/
def metric_total_balance (vf pfs : String) (lo hi : ℤ) (client_df : List Client) : ℚ :=
  ((filtered_df vf pfs lo hi client_df).map (·.currentBalance)).sum

/-- Line 261: `verified_count = len(filtered_df[filtered_df["Verified"] == "✅ Verified"])`. -/
def metric_verified_count (vf pfs : String) (lo hi : ℤ) (client_df : List Client) : ℕ :=
  ((filtered_df vf pfs lo hi client_df).filter (fun c => c.verified == "✅ Verified")).length

/-- Line 262: the verification rate, with the explicit fallback 0 on an
empty view. -/
def metric_verification_rate (vf pfs : String) (lo hi : ℤ) (client_df : List Client) : ℚ :=
  if 0 < (filtered_df vf pfs lo hi client_df).length then
    (metric_verified_count vf pfs lo hi client_df : ℚ)
      / (filtered_df vf pfs lo hi client_df).length * 100
  else 0

/-- Line 249: the average-sent delta, `"N/A"` when the view is empty. -/
def metric_avg_sent (vf pfs : String) (lo hi : ℤ) (client_df : List Client) : Displayed :=
  if 0 < (filtered_df vf pfs lo hi client_df).length then
    Displayed.money (metric_total_sent vf pfs lo hi client_df
      / (filtered_df vf pfs lo hi client_df).length)
  else Displayed.text "N/A"

/-- Line 257: the average-balance delta, `"N/A"` when the view is empty. -/
def metric_avg_balance (vf pfs : String) (lo hi : ℤ) (client_df : List Client) : Displayed :=
  if 0 < (filtered_df vf pfs lo hi client_df).length then
    Displayed.money (metric_total_balance vf pfs lo hi client_df
      / (filtered_df vf pfs lo hi client_df).length)
  else Displayed.text "N/A"

/-- Line 270: `confirmed_payouts = len(payouts_df[payouts_df["Status"] == "Completed"])` —
computed on the *full* journal. -/
def metric_confirmed_payouts (payouts_df : List Payout) : ℕ :=
  (payouts_df.filter (fun p => p.status == "Completed")).length

/-- Line 382: `len(logs_filtered)`. -/
def metric_days_tracked (date_range : List ℕ) (logs_df : List LogEntry) : ℕ :=
  (logs_filtered date_range logs_df).length

/-- Line 384: `avg_daily = logs_filtered["Daily Total"].mean()` — no emptiness
guard, so an empty view yields NaN. -/
def metric_avg_daily (date_range : List ℕ) (logs_df : List LogEntry) : Displayed :=
  seriesMean ((logs_filtered date_range logs_df).map (·.dailyTotal))

/-- Line 387: `total_period = logs_filtered["Daily Total"].sum()`. -/
def metric_total_period (date_range : List ℕ) (logs_df : List LogEntry) : ℚ :=
  ((logs_filtered date_range logs_df).map (·.dailyTotal)).sum

/-- Line 393: `logs_filtered["Cash App"].sum()`. -/
def payment_methods_cash_app (date_range : List ℕ) (logs_df : List LogEntry) : ℚ :=
  ((logs_filtered date_range logs_df).map (·.cashApp)).sum

/-- Line 394. -/
def payment_methods_zelle (date_range : List ℕ) (logs_df : List LogEntry) : ℚ :=
  ((logs_filtered date_range logs_df).map (·.zelle)).sum

/-- Line 395. -/
def payment_methods_paypal (date_range : List ℕ) (logs_df : List LogEntry) : ℚ :=
  ((logs_filtered date_range logs_df).map (·.paypal)).sum

/-- Line 396. -/
def payment_methods_bank (date_range : List ℕ) (logs_df : List LogEntry) : ℚ :=
  ((logs_filtered date_range logs_df).map (·.bankTransfer)).sum

/-- Lines 465-468: `completed_amount`, summed over `payouts_df` — the full
journal, not `filtered_payouts`.  (The `str`-stripping lambda there is the
identity on the numeric column, since line 444 formats only the copy.) -/
def metric_completed_amount (payouts_df : List Payout) : ℚ :=
  ((payouts_df.filter (fun p => p.status == "Completed")).map (·.amount)).sum

/-- Lines 471-472: `processing_count`, counted over the full journal. -/
def metric_processing_count (payouts_df : List Payout) : ℕ :=
  (payouts_df.filter (fun p => p.status == "Processing")).length

/-- Lines 475-476: `failed_count`, counted over the full journal. -/
def metric_failed_count (payouts_df : List Payout) : ℕ :=
  (payouts_df.filter (fun p => p.status == "Failed")).length

/-- Decimal decoding of a digit-character list. -/
def digitsVal (l : List Char) : ℕ :=
  l.foldl (fun a c => 10 * a + (c.toNat - 48)) 0

/-! ### Concrete records used by witnesses and counterexamples -/

/-- A verified client matched by the search term `"alice"`. -/
def cAlice : Client where
  clientId := "DD-1000"
  name := "Alice Smith"
  email := "alice.smith7@gmail.com"
  verified := "✅ Verified"
  maxBalance := 1000
  currentBalance := 950
  cashAppSent := 100
  zelleSent := 0
  paypalSent := 0
  bankTransfer := 0
  totalSent := 100
  payoutStatus := "Confirmed"
  lastActivity := 3
  joinDate := 100

/-- An unverified client not matched by the search term `"alice"`. -/
def cBob : Client where
  clientId := "DD-1001"
  name := "Bob Jones"
  email := "bob.jones9@yahoo.com"
  verified := "❌ Unverified"
  maxBalance := 500
  currentBalance := 400
  cashAppSent := 0
  zelleSent := 50
  paypalSent := 0
  bankTransfer := 0
  totalSent := 50
  payoutStatus := "Pending"
  lastActivity := 5
  joinDate := 200

/-- A client whose name matches the regex `"M.ra"` but contains no literal
`"m.ra"` substring. -/
def cMara : Client where
  clientId := "DD-1002"
  name := "Mara Lane"
  email := "mara.lane3@aol.com"
  verified := "✅ Verified"
  maxBalance := 800
  currentBalance := 700
  cashAppSent := 0
  zelleSent := 0
  paypalSent := 25
  bankTransfer := 0
  totalSent := 25
  payoutStatus := "Processing"
  lastActivity := 1
  joinDate := 50

/-- A client holding the maximal balance 10.5, which has a fractional part. -/
def cHalf : Client where
  clientId := "DD-1003"
  name := "Cara Dale"
  email := "cara.dale2@aol.com"
  verified := "✅ Verified"
  maxBalance := 900
  currentBalance := Rat.divInt 21 2
  cashAppSent := 0
  zelleSent := 0
  paypalSent := 0
  bankTransfer := 0
  totalSent := 0
  payoutStatus := "Confirmed"
  lastActivity := 2
  joinDate := 60

/-- A client with a small integral balance, below `cHalf`'s. -/
def cSmall : Client where
  clientId := "DD-1004"
  name := "Dana East"
  email := "dana.east5@aol.com"
  verified := "❌ Unverified"
  maxBalance := 600
  currentBalance := 3
  cashAppSent := 0
  zelleSent := 0
  paypalSent := 0
  bankTransfer := 0
  totalSent := 0
  payoutStatus := "Pending"
  lastActivity := 4
  joinDate := 70

/-- A completed payout. -/
def pCompleted : Payout where
  confirmationId := "PAY-11111"
  amount := 500
  method := "Zelle"
  status := "Completed"
  date := 2
  clientId := "DD-1003"

/-- A failed payout. -/
def pFailed : Payout where
  confirmationId := "PAY-22222"
  amount := 200
  method := "PayPal"
  status := "Failed"
  date := 4
  clientId := "DD-1005"

/-- A client-generation draw with all channels off and a deeply negative
balance noise, driving the unclamped balance below zero. -/
def dNeg : ClientDraw where
  firstName := "Eve"
  lastName := "Frost"
  cashAppOn := true
  cashAppRaw := 300
  zelleOn := false
  zelleRaw := 0
  paypalOn := false
  paypalRaw := 0
  bankOn := false
  bankRaw := 0
  maxBalanceRaw := 100
  noise := -300
  verifiedFlag := false
  payoutChoice := "Pending"
  emailNum := 4
  domain := "aol.com"
  lastActivityDays := 6
  joinDays := 80

/-- A client-generation draw whose unclamped balance stays nonnegative. -/
def dPos : ClientDraw where
  firstName := "Gail"
  lastName := "Hart"
  cashAppOn := true
  cashAppRaw := 100
  zelleOn := false
  zelleRaw := 0
  paypalOn := false
  paypalRaw := 0
  bankOn := false
  bankRaw := 0
  maxBalanceRaw := 1000
  noise := 50
  verifiedFlag := true
  payoutChoice := "Confirmed"
  emailNum := 7
  domain := "gmail.com"
  lastActivityDays := 3
  joinDays := 100

/-- Two days of ledger draws. -/
def ddraws2 : List DayDraw :=
  [{ cashAppRaw := 100, zelleRaw := 200, paypalRaw := 300, bankRaw := 400, transactions := 7 },
   { cashAppRaw := 10, zelleRaw := 20, paypalRaw := 30, bankRaw := 40, transactions := 5 }]

/-- The two-day demo ledger (dates 0 and 1). -/
def demoLogs : List LogEntry := generate_daily_logs ddraws2

/-- A payout draw with everything fixed except the drawn id number. -/
def mkPd (n : ℕ) : PayoutDraw where
  idNum := n
  amountRaw := 100
  method := "Zelle"
  status := "Completed"
  daysAgo := 3
  clientNum := 1005

/-- Fifteen valid payout draws in which the id number 10000 is drawn twice —
a draw stream `random.randint(10000, 99999)` can produce. -/
def pds15 : List PayoutDraw :=
  [mkPd 10000, mkPd 10000, mkPd 10001, mkPd 10002, mkPd 10003, mkPd 10004,
   mkPd 10005, mkPd 10006, mkPd 10007, mkPd 10008, mkPd 10009, mkPd 10010,
   mkPd 10011, mkPd 10012, mkPd 10013]

/-! ### Helper lemmas -/

theorem roundHalfEven_nonneg {q : ℚ} (h : 0 ≤ q) : 0 ≤ roundHalfEven q := by
  unfold roundHalfEven
  have hf : (0 : ℤ) ≤ ⌊q⌋ := Int.floor_nonneg.mpr h
  dsimp only
  split
  · exact hf
  · split
    · omega
    · split
      · exact hf
      · omega

theorem roundHalfEven_nonpos {q : ℚ} (h : q < 0) : roundHalfEven q ≤ 0 := by
  unfold roundHalfEven
  have hf : ⌊q⌋ < 0 := by
    have : (⌊q⌋ : ℚ) ≤ q := Int.floor_le q
    have : (⌊q⌋ : ℚ) < 0 := lt_of_le_of_lt this h
    exact_mod_cast this
  dsimp only
  split
  · omega
  · split
    · omega
    · split
      · omega
      · omega

theorem round2_nonneg {q : ℚ} (h : 0 ≤ q) : 0 ≤ round2 q := by
  unfold round2
  have h100 : (0 : ℚ) ≤ 100 * q := by positivity
  have := roundHalfEven_nonneg h100
  positivity

theorem round2_nonpos {q : ℚ} (h : q < 0) : round2 q ≤ 0 := by
  unfold round2
  have h100 : 100 * q < 0 := by
    have : (0:ℚ) < 100 := by norm_num
    exact mul_neg_of_pos_of_neg this h
  have hr := roundHalfEven_nonpos h100
  have : (roundHalfEven (100 * q) : ℚ) ≤ 0 := by exact_mod_cast hr
  linarith

/-- The sequential sidebar filter chain is one filter by the conjunction of
its three predicates. -/
theorem filtered_df_eq_filter (vf pfs : String) (lo hi : ℤ) (df : List Client) :
    filtered_df vf pfs lo hi df = df.filter (clientPredNoSearch vf pfs lo hi) := by
  unfold filtered_df
  by_cases h1 : vf = "All" <;> by_cases h2 : pfs = "All" <;>
    simp only [h1, h2, ne_eq, not_true_eq_false, not_false_eq_true, if_true, if_false,
      ite_true, ite_false, List.filter_filter] <;>
    refine List.filter_congr fun c _ => ?_ <;>
    cases hv : c.verified == vf <;> cases hp : c.payoutStatus == pfs <;>
      cases hb1 : decide ((lo : ℚ) ≤ c.currentBalance) <;>
      cases hb2 : decide (c.currentBalance ≤ (hi : ℚ)) <;>
    simp_all [clientPredNoSearch]

/-- The full client pipeline (sidebar chain followed by the search filter)
is one filter by the conjunction of all four predicates. -/
theorem filtered_df_searched_eq_filter (vf pfs : String) (lo hi : ℤ) (term : String)
    (df : List Client) :
    filtered_df_searched vf pfs lo hi term df = df.filter (clientPred vf pfs lo hi term) := by
  unfold filtered_df_searched apply_search
  rw [filtered_df_eq_filter]
  by_cases h : term = ""
  · subst h
    simp only [ne_eq, not_true_eq_false, if_false, ite_false]
    refine List.filter_congr fun c _ => ?_
    simp [clientPred]
  · simp only [ne_eq, h, not_false_eq_true, if_true, ite_true, List.filter_filter]
    refine List.filter_congr fun c _ => ?_
    cases hn : clientPredNoSearch vf pfs lo hi c <;>
      cases hc : pyContains c.name term || pyContains c.email term <;>
    simp_all [clientPred]

/-- On a pattern with no `.` wildcard, matching at one position is exactly
the prefix test. -/
theorem reMatchAt_eq_of_no_dot :
    ∀ (pat l : List Char), pat.all (fun c => !(c == dotChar)) = true →
      reMatchAt pat l = pat.isPrefixOf l := by
  intro pat
  induction pat with
  | nil => intro l _; cases l <;> rfl
  | cons p ps ih =>
    intro l hall
    have hall' := hall
    simp only [List.all_cons, Bool.and_eq_true] at hall'
    cases l with
    | nil => rfl
    | cons h hs =>
      have hpd : (p == dotChar) = false := by
        cases hpd : p == dotChar
        · rfl
        · rw [hpd] at hall'; simp at hall'
      simp only [reMatchAt, List.isPrefixOf, hpd, Bool.false_eq_true, if_false, ite_false]
      rw [ih hs hall'.2]

/-- On a pattern with no `.` wildcard, regex search is exactly substring
containment. -/
theorem reSearchAux_eq_of_no_dot (pat : List Char)
    (hp : pat.all (fun c => !(c == dotChar)) = true) :
    ∀ l : List Char, reSearchAux pat l = containsSubAux pat l := by
  intro l
  induction l with
  | nil => simp only [reSearchAux, containsSubAux, reMatchAt_eq_of_no_dot pat [] hp]
  | cons h hs ih =>
    simp only [reSearchAux, containsSubAux, reMatchAt_eq_of_no_dot pat (h :: hs) hp, ih]

/-- For search terms without the `.` metacharacter, the source's regex
search coincides with the spec's case-insensitive substring containment. -/
theorem pyContains_eq_strContainsCI (s term : String)
    (h : (lowerChars term).all (fun c => !(c == dotChar)) = true) :
    pyContains s term = strContainsCI s term :=
  reSearchAux_eq_of_no_dot (lowerChars term) h (lowerChars s)

/-- Filtering a list twice by the same predicate is filtering it once. -/
theorem filter_idem {α : Type} (p : α → Bool) (l : List α) :
    (l.filter p).filter p = l.filter p := by
  rw [List.filter_filter]
  refine List.filter_congr fun a _ => ?_
  cases p a <;> rfl

/-- The log loop emits one entry per draw. -/
theorem genLogsAux_length : ∀ (draws : List DayDraw) (day : ℕ) (cum : ℚ),
    (genLogsAux day cum draws).length = draws.length := by
  intro draws
  induction draws with
  | nil => intro day cum; rfl
  | cons d rest ih => intro day cum; simp [genLogsAux, ih]

/-- The first entry the loop emits from running total `cum` carries
cumulative total `cum +` its own daily total. -/
theorem genLogsAux_head (d : DayDraw) (rest : List DayDraw) (day : ℕ) (cum : ℚ)
    (h : 0 < (genLogsAux day cum (d :: rest)).length) :
    ((genLogsAux day cum (d :: rest)).get ⟨0, h⟩).cumulativeTotal
      = cum + ((genLogsAux day cum (d :: rest)).get ⟨0, h⟩).dailyTotal := by
  simp [genLogsAux]

/-- Within any run of the log loop, each entry's cumulative total is the
previous entry's cumulative total plus its own daily total. -/
theorem genLogsAux_step : ∀ (draws : List DayDraw) (day : ℕ) (cum : ℚ) (i : ℕ)
    (h : i + 1 < (genLogsAux day cum draws).length),
    ((genLogsAux day cum draws).get ⟨i + 1, h⟩).cumulativeTotal
      = ((genLogsAux day cum draws).get ⟨i, Nat.lt_of_succ_lt h⟩).cumulativeTotal
        + ((genLogsAux day cum draws).get ⟨i + 1, h⟩).dailyTotal := by
  intro draws
  induction draws with
  | nil => intro day cum i h; simp [genLogsAux] at h
  | cons d rest ih =>
    intro day cum i h
    cases i with
    | zero =>
      cases rest with
      | nil => simp [genLogsAux] at h
      | cons d2 rest2 =>
        have h' : 0 < (genLogsAux (day + 1)
            (cum + (round2 d.cashAppRaw + round2 d.zelleRaw + round2 d.paypalRaw
              + round2 d.bankRaw)) (d2 :: rest2)).length := by
          simp [genLogsAux_length]
        simp only [genLogsAux, List.get_cons_succ, List.get_cons_zero]
        exact genLogsAux_head d2 rest2 _ _ h'
    | succ j =>
      have h' : j + 1 < (genLogsAux (day + 1)
          (cum + (round2 d.cashAppRaw + round2 d.zelleRaw + round2 d.paypalRaw
            + round2 d.bankRaw)) rest).length := by
        have := h
        simp only [genLogsAux, List.length_cons] at this
        omega
      simp only [genLogsAux, List.get_cons_succ]
      exact ih (day + 1) _ j h'

/-- The core digit loop `Nat.toDigitsCore` only ever prepends to its accumulator. -/
theorem toDigitsCore_append (b : ℕ) : ∀ (fuel n : ℕ) (ds : List Char),
    Nat.toDigitsCore b fuel n ds = Nat.toDigitsCore b fuel n [] ++ ds := by
  intro fuel
  induction fuel with
  | zero => intro n ds; rfl
  | succ f ih =>
    intro n ds
    simp only [Nat.toDigitsCore]
    by_cases h : n / b = 0
    · simp [h]
    · simp only [h, if_false, ite_false]
      rw [ih (n / b) (Nat.digitChar (n % b) :: ds), ih (n / b) [Nat.digitChar (n % b)]]
      simp

/-- Any sufficient fuel gives `Nat.toDigitsCore` the same digits. -/
theorem toDigitsCore_fuel (b : ℕ) (hb : 2 ≤ b) : ∀ (n fuel fuel' : ℕ),
    n < fuel → n < fuel' →
    Nat.toDigitsCore b fuel n [] = Nat.toDigitsCore b fuel' n [] := by
  intro n
  induction n using Nat.strong_induction_on with
  | _ n ihn =>
    intro fuel fuel' hf hf'
    cases fuel with
    | zero => omega
    | succ f =>
      cases fuel' with
      | zero => omega
      | succ f' =>
        simp only [Nat.toDigitsCore]
        by_cases h : n / b = 0
        · simp [h]
        · simp only [h, if_false, ite_false]
          have hn0 : 0 < n := by
            rcases Nat.eq_zero_or_pos n with h0 | h0
            · subst h0; simp at h
            · exact h0
          have hdiv : n / b < n := Nat.div_lt_self hn0 (by omega)
          rw [toDigitsCore_append b f, toDigitsCore_append b f']
          rw [ihn (n / b) hdiv f f' (by omega) (by omega)]

/-- Decoding inverts `Nat.toDigits 10`, relative to any accumulator. -/
theorem toDigits_foldl (n : ℕ) : ∀ acc : ℕ,
    (Nat.toDigits 10 n).foldl (fun a c => 10 * a + (c.toNat - 48)) acc
      = acc * 10 ^ (Nat.toDigits 10 n).length + n := by
  induction n using Nat.strong_induction_on with
  | _ n ihn =>
    intro acc
    have hdigit : ∀ m : ℕ, m < 10 → (Nat.digitChar m).toNat - 48 = m := by decide
    by_cases h : n / 10 = 0
    · have hn10 : n < 10 := by omega
      have hexp : Nat.toDigits 10 n = [Nat.digitChar (n % 10)] := by
        simp only [Nat.toDigits, Nat.toDigitsCore, h, if_true, ite_true]
      rw [hexp]
      simp only [List.foldl, List.length_cons, List.length_nil]
      rw [Nat.mod_eq_of_lt hn10, hdigit n hn10]
      ring
    · have hn0 : 0 < n := by
        rcases Nat.eq_zero_or_pos n with h0 | h0
        · subst h0; simp at h
        · exact h0
      have hdiv : n / 10 < n := Nat.div_lt_self hn0 (by omega)
      have hexp : Nat.toDigits 10 n
          = Nat.toDigits 10 (n / 10) ++ [Nat.digitChar (n % 10)] := by
        show Nat.toDigitsCore 10 (n + 1) n [] = _
        simp only [Nat.toDigitsCore, h, if_false, ite_false]
        rw [toDigitsCore_append 10 n]
        rw [toDigitsCore_fuel 10 (by omega) (n / 10) n (n / 10 + 1) (by omega) (by omega)]
        rfl
      rw [hexp]
      rw [List.foldl_append]
      rw [ihn (n / 10) hdiv acc]
      simp only [List.foldl, List.length_append, List.length_cons, List.length_nil]
      rw [hdigit (n % 10) (Nat.mod_lt n (by omega))]
      have : acc * 10 ^ ((Nat.toDigits 10 (n / 10)).length + (0 + 1))
          = (acc * 10 ^ (Nat.toDigits 10 (n / 10)).length) * 10 := by
        ring
      rw [this]
      have := Nat.div_add_mod n 10
      omega

/-- Decoding the decimal digits of `n` yields `n`. -/
theorem digitsVal_toDigits (n : ℕ) : digitsVal (Nat.toDigits 10 n) = n := by
  have := toDigits_foldl n 0
  simpa [digitsVal] using this

/-- Decimal string representations of distinct naturals are distinct. -/
theorem Nat_repr_injective : Function.Injective Nat.repr := by
  intro m n h
  have hl : Nat.toDigits 10 m = Nat.toDigits 10 n := by
    have := congrArg String.data h
    simpa [Nat.repr, List.asString] using this
  have := congrArg digitsVal hl
  simpa [digitsVal_toDigits] using this

/-- The maximum `seriesMax` of a nonempty list is bounded by any upper bound of it. -/
theorem seriesMax_le : ∀ (l : List ℚ) (x : ℚ), l ≠ [] → (∀ y ∈ l, y ≤ x) →
    seriesMax l ≤ x := by
  intro l
  induction l with
  | nil => intro x h _; exact absurd rfl h
  | cons a t ih =>
    intro x _ hb
    cases t with
    | nil => exact hb a (by simp)
    | cons b t2 =>
      have h1 : a ≤ x := hb a (by simp)
      have h2 : seriesMax (b :: t2) ≤ x := by
        refine ih x (by simp) fun y hy => hb y (by simp [hy])
      simpa [seriesMax] using max_le h1 h2

/-- The maximum `seriesMax` of a list equals any of its members that bounds the list. -/
theorem seriesMax_eq : ∀ (l : List ℚ) (x : ℚ), x ∈ l → (∀ y ∈ l, y ≤ x) →
    seriesMax l = x := by
  intro l
  induction l with
  | nil => intro x h; exact absurd h (by simp)
  | cons a t ih =>
    intro x hm hb
    cases t with
    | nil =>
      have : x = a := by simpa using hm
      simp [seriesMax, this]
    | cons b t2 =>
      rcases List.mem_cons.mp hm with h | h
      · subst h
        have : seriesMax (b :: t2) ≤ x := by
          refine seriesMax_le (b :: t2) x (by simp) fun y hy => hb y (by simp [hy])
        simpa [seriesMax] using max_eq_left this
      · have hx : seriesMax (b :: t2) = x := by
          refine ih x h fun y hy => hb y (by simp [hy])
        have ha : a ≤ x := hb a (by simp)
        rw [seriesMax, hx]
        exact max_eq_right ha

/-! ### Claims -/

/-- C5 (confirmed): for every generated Client record the stored current
balance is at least 0: when the unclamped computation
max-balance − total-sent + noise is negative, the stored balance is clamped
to 0, and otherwise it equals the computed (two-decimal-rounded) value. -/
theorem c5_balance_clamped (i : ℕ) (d : ClientDraw) :
    0 ≤ (mkClient i d).currentBalance ∧
    (current_balance_raw d < 0 → (mkClient i d).currentBalance = 0) ∧
    (0 ≤ current_balance_raw d → (mkClient i d).currentBalance = current_balance d) := by
  have hbal : (mkClient i d).currentBalance = max (current_balance d) 0 := rfl
  refine ⟨?_, ?_, ?_⟩
  · rw [hbal]; exact le_max_right _ _
  · intro h
    rw [hbal]
    have hle : current_balance d ≤ 0 := by
      unfold current_balance
      exact round2_nonpos h
    exact max_eq_right hle
  · intro h
    rw [hbal]
    refine max_eq_left ?_
    unfold current_balance
    exact round2_nonneg h

/-- Witness for C5 at two concrete draws: `dNeg` drives the unclamped
balance to −500 and stores 0; `dPos` stays at 950 and stores it. -/
theorem c5_witness :
    current_balance_raw dNeg < 0 ∧ (mkClient 0 dNeg).currentBalance = 0 ∧
    0 ≤ current_balance_raw dPos ∧
    (mkClient 1 dPos).currentBalance = current_balance dPos :=
  ⟨by with_unfolding_all decide,
   (c5_balance_clamped 0 dNeg).2.1 (by with_unfolding_all decide),
   by with_unfolding_all decide,
   (c5_balance_clamped 1 dPos).2.2 (by with_unfolding_all decide)⟩

/-- C8 (confirmed): for every generated Client record the stored total-sent
column equals the sum of the four per-channel sent amounts — exactly, in
the rational model (hence in particular within rounding tolerance). -/
theorem c8_total_sent_is_channel_sum (i : ℕ) (d : ClientDraw) :
    (mkClient i d).totalSent
      = (mkClient i d).cashAppSent + (mkClient i d).zelleSent
        + (mkClient i d).paypalSent + (mkClient i d).bankTransfer := rfl

/-- C2 (confirmed): in every generated Daily Ledger, taken in chronological
order, each entry's cumulative total is the previous entry's cumulative
total plus its own daily total, and the first entry's cumulative total is
its own daily total. -/
theorem c2_cumulative_recurrence (draws : List DayDraw) :
    (∀ (i : ℕ) (h : i + 1 < (generate_daily_logs draws).length),
      ((generate_daily_logs draws).get ⟨i + 1, h⟩).cumulativeTotal
        = ((generate_daily_logs draws).get ⟨i, Nat.lt_of_succ_lt h⟩).cumulativeTotal
          + ((generate_daily_logs draws).get ⟨i + 1, h⟩).dailyTotal) ∧
    (∀ h0 : 0 < (generate_daily_logs draws).length,
      ((generate_daily_logs draws).get ⟨0, h0⟩).cumulativeTotal
        = ((generate_daily_logs draws).get ⟨0, h0⟩).dailyTotal) := by
  constructor
  · intro i h
    exact genLogsAux_step draws 0 0 i h
  · intro h0
    cases draws with
    | nil => simp [generate_daily_logs, genLogsAux] at h0
    | cons d rest =>
      have hh := genLogsAux_head d rest 0 0 h0
      rw [zero_add] at hh
      exact hh

/-- Witness for C2 on the concrete two-day ledger `demoLogs`. -/
theorem c2_witness :
    ((generate_daily_logs ddraws2).get ⟨1, by with_unfolding_all decide⟩).cumulativeTotal
      = ((generate_daily_logs ddraws2).get ⟨0, by with_unfolding_all decide⟩).cumulativeTotal
        + ((generate_daily_logs ddraws2).get ⟨1, by with_unfolding_all decide⟩).dailyTotal ∧
    ((generate_daily_logs ddraws2).get ⟨0, by with_unfolding_all decide⟩).cumulativeTotal
      = ((generate_daily_logs ddraws2).get ⟨0, by with_unfolding_all decide⟩).dailyTotal :=
  ⟨(c2_cumulative_recurrence ddraws2).1 0 (by with_unfolding_all decide),
   (c2_cumulative_recurrence ddraws2).2 (by with_unfolding_all decide)⟩

/-- C3 (counterexample): with the search term read as the spec words it —
case-insensitive *substring* containment — the claim fails: the source
hands the term to `Series.str.contains` with its default `regex=True`, so
the term `"M.ra"` (whose `.` is a regex wildcard) matches the client named
`"Mara Lane"` and the source keeps her, while the substring predicate
drops her. -/
theorem c3_counterexample :
    filtered_df_searched ("All") ("All") 0 1000 ("M.ra") [cMara]
      ≠ [cMara].filter (clientPredSpec ("All") ("All") 0 1000 ("M.ra")) := by
  with_unfolding_all decide

/-- C3 (corrected): client filtering is one filter by the conjunction of
the four predicates — verification status or "All", payout status or
"All", balance in the inclusive integer range, and name-or-email matched
by the search term *as a case-insensitive regular expression* (or the term
empty); being a single filter of a conjunction, the result is independent
of the order the predicates are applied in.  For search terms containing
no regex metacharacter, the regex reading coincides with the spec's
substring reading. -/
theorem c3_filter_is_predicate_conjunction :
    (∀ (vf pfs : String) (lo hi : ℤ) (term : String) (df : List Client),
      filtered_df_searched vf pfs lo hi term df
        = df.filter (clientPred vf pfs lo hi term)) ∧
    (∀ s term : String, (lowerChars term).all (fun c => !(c == dotChar)) = true →
      pyContains s term = strContainsCI s term) :=
  ⟨filtered_df_searched_eq_filter, pyContains_eq_strContainsCI⟩

/-- Witness for C3 at a concrete metacharacter-free term. -/
theorem c3_witness :
    (lowerChars ("mara")).all (fun c => !(c == dotChar)) = true ∧
    pyContains ("Mara Lane") ("mara") = strContainsCI ("Mara Lane") ("mara") :=
  ⟨by decide, c3_filter_is_predicate_conjunction.2 ("Mara Lane") ("mara") (by decide)⟩

/-- C4 (confirmed): filtering is idempotent for all three pipelines —
re-applying the client pipeline, the payout status filter, or the ledger
date filter with the same selections to its own output changes nothing. -/
theorem c4_filter_idempotent (vf pfs : String) (lo hi : ℤ) (term : String)
    (df : List Client) (sel : String) (pj : List Payout)
    (r : List ℕ) (logs : List LogEntry) :
    filtered_df_searched vf pfs lo hi term (filtered_df_searched vf pfs lo hi term df)
      = filtered_df_searched vf pfs lo hi term df ∧
    filtered_payouts sel (filtered_payouts sel pj) = filtered_payouts sel pj ∧
    logs_filtered r (logs_filtered r logs) = logs_filtered r logs := by
  refine ⟨?_, ?_, ?_⟩
  · simp only [filtered_df_searched_eq_filter, filter_idem]
  · unfold filtered_payouts
    by_cases h : sel = "All"
    · simp [h]
    · simp [h, filter_idem]
  · rcases date_range_cases : r with _ | ⟨a, _ | ⟨b, _ | ⟨c, t⟩⟩⟩
    · rfl
    · rfl
    · exact filter_idem _ logs
    · rfl

/-- C6 (confirmed): when the supplied date range does not have exactly two
bounds, ledger filtering is a no-op; with exactly two bounds an entry
passes iff its date lies in the inclusive window. -/
theorem c6_date_range_fallback (date_range : List ℕ) (logs : List LogEntry) :
    (date_range.length ≠ 2 → logs_filtered date_range logs = logs) ∧
    (∀ (s e : ℕ) (l : LogEntry),
      l ∈ logs_filtered [s, e] logs ↔ l ∈ logs ∧ s ≤ l.date ∧ l.date ≤ e) := by
  constructor
  · intro h
    rcases date_range with _ | ⟨a, _ | ⟨b, _ | ⟨c, t⟩⟩⟩
    · rfl
    · rfl
    · exact absurd rfl h
    · rfl
  · intro s e l
    simp [logs_filtered, List.mem_filter, and_assoc]

/-- Witness for C6: a one-element range leaves the demo ledger untouched. -/
theorem c6_witness :
    (([5] : List ℕ).length ≠ 2) ∧ logs_filtered [5] demoLogs = demoLogs :=
  ⟨by decide, (c6_date_range_fallback [5] demoLogs).1 (by decide)⟩

/-- C9 (counterexample): the confirmation identifier is *not* a unique key.
The generator draws each id as `random.randint(10000, 99999)` with no
deduplication, so a draw stream it can produce — fifteen in-range draws in
which 10000 comes up twice — yields two records with the identifier
`"PAY-10000"`. -/
theorem c9_counterexample :
    pds15.length = 15 ∧ (∀ d ∈ pds15, validPayoutDraw d) ∧
    ¬ ((generate_payout_confirmations pds15).map (fun p => p.confirmationId)).Nodup := by
  refine ⟨rfl, by with_unfolding_all decide, by decide⟩

/-- C9 (corrected): confirmation identifiers are `"PAY-"` followed by the
decimal digits of the drawn number, so they are pairwise distinct exactly
when the drawn id numbers are — which the code does not enforce. -/
theorem c9_ids_distinct_if_draws_distinct (draws : List PayoutDraw)
    (h : (draws.map (fun d => d.idNum)).Nodup) :
    ((generate_payout_confirmations draws).map (fun p => p.confirmationId)).Nodup := by
  have hinj : Function.Injective (fun n : ℕ => "PAY-" ++ Nat.repr n) := by
    intro a b hab
    apply Nat_repr_injective
    have hd := congrArg String.data hab
    simp only [String.data_append] at hd
    exact String.ext (List.append_cancel_left hd)
  have hmap : ((generate_payout_confirmations draws).map (fun p => p.confirmationId))
      = (draws.map (fun d => d.idNum)).map (fun n : ℕ => "PAY-" ++ Nat.repr n) := by
    unfold generate_payout_confirmations
    simp only [List.map_map]
    rfl
  rw [hmap]
  exact h.map hinj

/-- Witness for C9's corrected statement at two distinct draws. -/
theorem c9_witness :
    ([mkPd 10000, mkPd 10001].map (fun d => d.idNum)).Nodup ∧
    ((generate_payout_confirmations [mkPd 10000, mkPd 10001]).map
      (fun p => p.confirmationId)).Nodup :=
  ⟨by decide, c9_ids_distinct_if_draws_distinct [mkPd 10000, mkPd 10001] (by decide)⟩

/-- C10 (confirmed): the balance slider's default upper bound is the
integer truncation of the largest current balance, so with every other
filter wide open a client holding that maximum is excluded whenever the
maximum has a nonzero fractional part. -/
theorem c10_default_upper_truncates (df : List Client) (c : Client)
    (hmem : c ∈ df) (hmax : ∀ c2 ∈ df, c2.currentBalance ≤ c.currentBalance)
    (hfrac : (pyInt c.currentBalance : ℚ) < c.currentBalance) :
    (balance_range_default df).2 = pyInt c.currentBalance ∧
    c ∉ filtered_df_searched ("All") ("All") (balance_range_default df).1
        (balance_range_default df).2 ("") df := by
  have hsm : seriesMax (df.map (fun x => x.currentBalance)) = c.currentBalance := by
    refine seriesMax_eq _ _ (List.mem_map_of_mem _ hmem) ?_
    intro y hy
    rcases List.mem_map.mp hy with ⟨c2, hc2, rfl⟩
    exact hmax c2 hc2
  have h2 : (balance_range_default df).2 = pyInt c.currentBalance := by
    show pyInt (seriesMax (df.map (fun x => x.currentBalance))) = _
    rw [hsm]
  refine ⟨h2, ?_⟩
  intro hc
  rw [filtered_df_searched_eq_filter] at hc
  have hp := (List.mem_filter.mp hc).2
  unfold clientPred clientPredNoSearch at hp
  simp only [Bool.and_eq_true, decide_eq_true_eq] at hp
  have hble : c.currentBalance ≤ (((balance_range_default df).2 : ℤ) : ℚ) := hp.1.2.2
  rw [h2] at hble
  exact absurd hble (not_le.mpr hfrac)

/-- Witness for C10: with balances 10.5 and 3 the default upper bound is
10 and the maximal client is excluded from the default filtered view. -/
theorem c10_witness :
    cHalf ∈ [cHalf, cSmall] ∧
    (pyInt cHalf.currentBalance : ℚ) < cHalf.currentBalance ∧
    (balance_range_default [cHalf, cSmall]).2 = pyInt cHalf.currentBalance ∧
    cHalf ∉ filtered_df_searched ("All") ("All")
      (balance_range_default [cHalf, cSmall]).1
      (balance_range_default [cHalf, cSmall]).2 ("") [cHalf, cSmall] := by
  have h := c10_default_upper_truncates [cHalf, cSmall] cHalf (by decide)
    (by with_unfolding_all decide) (by with_unfolding_all decide)
  exact ⟨by decide, by with_unfolding_all decide, h.1, h.2⟩

/-- C7 (counterexample): not every dependent average metric has a defined
fallback on an empty view: a date window containing none of the ledger's
days leaves zero rows, and the displayed average daily amount is then
pandas' mean of an empty column — NaN — rather than a defined fallback. -/
theorem c7_counterexample :
    (logs_filtered [100, 200] demoLogs).length = 0 ∧
    metric_avg_daily [100, 200] demoLogs = Displayed.nan := by
  with_unfolding_all decide

/-- C7 (corrected): on an empty filtered client view nothing raises and the
client metrics have explicit fallbacks — the two averages display `"N/A"`
and the verification rate displays 0 — while on an empty ledger view the
period total is 0 but the average daily amount is the NaN of an empty
mean, not an explicit fallback. -/
theorem c7_empty_view_fallbacks (vf pfs : String) (lo hi : ℤ) (df : List Client)
    (r : List ℕ) (logs : List LogEntry) :
    ((filtered_df vf pfs lo hi df).length = 0 →
      metric_avg_sent vf pfs lo hi df = Displayed.text ("N/A") ∧
      metric_avg_balance vf pfs lo hi df = Displayed.text ("N/A") ∧
      metric_verification_rate vf pfs lo hi df = 0) ∧
    ((logs_filtered r logs).length = 0 →
      metric_avg_daily r logs = Displayed.nan ∧
      metric_total_period r logs = 0) := by
  constructor
  · intro h
    refine ⟨?_, ?_, ?_⟩ <;>
      simp [metric_avg_sent, metric_avg_balance, metric_verification_rate, h]
  · intro h
    have hl : logs_filtered r logs = [] := List.length_eq_zero.mp h
    constructor
    · simp [metric_avg_daily, seriesMean, hl]
    · simp [metric_total_period, hl]

/-- Witness for C7's corrected statement on concrete empty views. -/
theorem c7_witness :
    (filtered_df ("All") ("All") 0 0 []).length = 0 ∧
    metric_avg_sent ("All") ("All") 0 0 [] = Displayed.text ("N/A") ∧
    metric_verification_rate ("All") ("All") 0 0 [] = 0 ∧
    (logs_filtered [] []).length = 0 ∧
    metric_avg_daily [] [] = Displayed.nan := by
  have h := c7_empty_view_fallbacks ("All") ("All") 0 0 [] [] []
  exact ⟨rfl, (h.1 rfl).1, (h.1 rfl).2.2, rfl, (h.2 rfl).1⟩

/-- C1 (counterexample): two displayed metrics are *not* computed over the
fully-filtered views.  With the search term `"alice"` active, the Total
Sent card still counts Bob (the key-metrics row runs before the search
filter); and with the payout status selection `"Completed"` active, the
Failed tally still counts the failed payout (the payout summary reads the
full journal). -/
theorem c1_counterexample :
    metric_total_sent ("All") ("All") 0 10000 [cAlice, cBob]
      ≠ ((filtered_df_searched ("All") ("All") 0 10000 ("alice") [cAlice, cBob]).map
          (fun c => c.totalSent)).sum ∧
    metric_failed_count [pCompleted, pFailed]
      ≠ ((filtered_payouts ("Completed") [pCompleted, pFailed]).filter
          (fun p => p.status == "Failed")).length := by
  constructor
  · with_unfolding_all decide
  · decide

/-- C1 (corrected): each displayed aggregate equals the corresponding sum
or count over the view its code line actually reads: the client key
metrics aggregate the sidebar-filtered view (verification, payout status
and balance range — without the free-text search); the per-channel totals,
average-daily and period-total metrics aggregate the date-filtered ledger
view; and the payout tallies aggregate the full unfiltered journal. -/
theorem c1_aggregates_over_views (vf pfs : String) (lo hi : ℤ) (df : List Client)
    (r : List ℕ) (logs : List LogEntry) (pj : List Payout) :
    metric_total_sent vf pfs lo hi df
      = ((df.filter (clientPredNoSearch vf pfs lo hi)).map (fun c => c.totalSent)).sum ∧
    metric_total_balance vf pfs lo hi df
      = ((df.filter (clientPredNoSearch vf pfs lo hi)).map (fun c => c.currentBalance)).sum ∧
    metric_verified_count vf pfs lo hi df
      = ((df.filter (clientPredNoSearch vf pfs lo hi)).filter
          (fun c => c.verified == "✅ Verified")).length ∧
    payment_methods_cash_app r logs
      = ((logs_filtered r logs).map (fun l => l.cashApp)).sum ∧
    payment_methods_zelle r logs
      = ((logs_filtered r logs).map (fun l => l.zelle)).sum ∧
    payment_methods_paypal r logs
      = ((logs_filtered r logs).map (fun l => l.paypal)).sum ∧
    payment_methods_bank r logs
      = ((logs_filtered r logs).map (fun l => l.bankTransfer)).sum ∧
    metric_total_period r logs
      = ((logs_filtered r logs).map (fun l => l.dailyTotal)).sum ∧
    metric_confirmed_payouts pj = (pj.filter (fun p => p.status == "Completed")).length ∧
    metric_completed_amount pj
      = ((pj.filter (fun p => p.status == "Completed")).map (fun p => p.amount)).sum ∧
    metric_processing_count pj = (pj.filter (fun p => p.status == "Processing")).length ∧
    metric_failed_count pj = (pj.filter (fun p => p.status == "Failed")).length := by
  refine ⟨?_, ?_, ?_, rfl, rfl, rfl, rfl, rfl, rfl, rfl, rfl, rfl⟩
  · unfold metric_total_sent; rw [filtered_df_eq_filter]
  · unfold metric_total_balance; rw [filtered_df_eq_filter]
  · unfold metric_verified_count; rw [filtered_df_eq_filter]

end DragonDash
